import Mathlib

/-!
Shallow embedding of the Agent Watchdog dashboard core
(`DashboardApp`, `RequestList.visibleRequests`, `InsightsDashboard`
aggregations, and the chat query router), together with proofs of the
specified invariants.  Strings are Lean `String`s, JS numbers used as
counts are `Nat`, timestamps obtained from `Date.getTime()` are `Int`,
and exact rational arithmetic (`ℚ`) stands for JS float arithmetic in
the percentage computations.
-/

namespace Watchdog

/-! ## String helpers

`strContains s sub` models JS `s.includes(sub)`: `sub` occurs as a
contiguous substring of `s`.  Implemented by direct recursion over the
character lists so that it evaluates by `decide`. -/

/-- `lPre sub l`: the character list `sub` starts the character list `l`. -/
def lPre : List Char → List Char → Bool
  | [], _ => true
  | _ :: _, [] => false
  | a :: as, b :: bs => a == b && lPre as bs

/-- `lSub sub l`: the character list `sub` occurs contiguously inside `l`. -/
def lSub (sub : List Char) : List Char → Bool
  | [] => lPre sub []
  | l@(_ :: t) => lPre sub l || lSub sub t

/-- JS `s.includes(sub)`. -/
def strContains (s sub : String) : Bool := lSub sub.data s.data

/-- JS `s.toLowerCase()`: lowercase every character. -/
def strToLower (s : String) : String := ⟨s.data.map Char.toLower⟩

/-- JS `s.trim()`: strip leading and trailing whitespace. -/
def strTrim (s : String) : String :=
  ⟨((s.data.dropWhile Char.isWhitespace).reverse.dropWhile Char.isWhitespace).reverse⟩

/-! ## Event-stream data model (`DashboardApp`)

An inbound stream event is `{ type, data }`; for `violation:detected`
events the dashboard reads `data.violation`, an optional partial
payload.  We model `data` by that optional payload directly (an event
whose `data` holds no `violation` field behaves exactly like `none`). -/

/-- The raw `Partial<Violation>` payload of a `violation:detected` event:
every field may be absent. -/
structure PartialViolation where
  type : Option String
  description : Option String
  severity : Option String
  evidence : Option String
  suggestedFix : Option String
deriving DecidableEq, Repr

/-- A stream event as consumed by the event effect of `DashboardApp`. -/
structure Event where
  type : String
  data : Option PartialViolation
deriving DecidableEq, Repr

/-- A normalized violation held in the live Violation Buffer.  `id` and
`detectedAt` are assigned client-side (`crypto.randomUUID()` /
`new Date().toISOString()`); they enter the model as parameters. -/
structure Violation where
  id : String
  type : String
  description : String
  severity : String
  evidence : Option String
  suggestedFix : Option String
  detectedAt : String
deriving DecidableEq, Repr

/-- JS truthiness of an optional string field: present and non-empty. -/
def truthy : Option String → Bool
  | none => false
  | some s => !s.isEmpty

/-- The normalized `Violation` built from a truthy payload, with the
client-assigned fresh id and timestamp. -/
def mkViolation (freshId now : String) (p : PartialViolation) : Violation :=
  { id := freshId
    type := p.type.getD ""
    description := p.description.getD ""
    severity := p.severity.getD ""
    evidence := p.evidence
    suggestedFix := p.suggestedFix
    detectedAt := now }

/-- One step of the Violation Buffer effect in `DashboardApp`: on a
`violation:detected` event whose payload has truthy `type`,
`description` and `severity`, prepend the normalized violation and keep
the first 8 entries (`[normalized, ...prev].slice(0, 8)`); otherwise the
buffer is unchanged.  The function is total: no error is raised. -/
def ingestStep (freshId now : String) (buf : List Violation) (e : Event) : List Violation :=
  if e.type = "violation:detected" then
    match e.data with
    | none => buf
    | some incoming =>
      if truthy incoming.type && truthy incoming.description && truthy incoming.severity then
        (mkViolation freshId now incoming :: buf).take 8
      else buf
  else buf

/-- One ingest occurrence: the event together with the fresh id and
timestamp the client assigns at that moment. -/
structure IngestInput where
  freshId : String
  now : String
  event : Event
deriving DecidableEq, Repr

/-- Run the Violation Buffer effect over a sequence of ingests. -/
def runIngest (buf0 : List Violation) (inputs : List IngestInput) : List Violation :=
  inputs.foldl (fun b i => ingestStep i.freshId i.now b i.event) buf0

/-- The normalized violation an ingest contributes, if it succeeds. -/
def extract (i : IngestInput) : Option Violation :=
  if i.event.type = "violation:detected" then
    match i.event.data with
    | none => none
    | some p =>
      if truthy p.type && truthy p.description && truthy p.severity then
        some (mkViolation i.freshId i.now p)
      else none
  else none

/-- One step of the refresh-counter effect in `DashboardApp`: increment
exactly on `request:processed` and `killswitch:triggered` events. -/
def refreshStep (c : Nat) (e : Event) : Nat :=
  if e.type = "request:processed" ∨ e.type = "killswitch:triggered" then c + 1 else c

/-- Run the refresh-counter effect over an event sequence. -/
def runRefresh (c : Nat) (evs : List Event) : Nat := evs.foldl refreshStep c

/-! ## Basic lemmas about the buffer step -/

theorem ingestStep_eq_extract (f n : String) (buf : List Violation) (e : Event) :
    ingestStep f n buf e =
      match extract ⟨f, n, e⟩ with
      | some v => (v :: buf).take 8
      | none => buf := by
  obtain ⟨ty, da⟩ := e
  cases da with
  | none =>
    by_cases h : ty = "violation:detected" <;> simp [ingestStep, extract, h]
  | some p =>
    by_cases h : ty = "violation:detected" <;>
      by_cases hp : (truthy p.type && truthy p.description && truthy p.severity) = true <;>
        simp [ingestStep, extract, h, hp]

theorem take_append_take (l m : List α) (k : Nat) :
    (l ++ m.take k).take k = (l ++ m).take k := by
  simp only [List.take_append_eq_append_take, List.take_take]
  rw [Nat.min_eq_left (Nat.sub_le k l.length)]

/-- Closed-form description of the buffer after any ingest sequence:
the successful ingests, most recent first, in front of the initial
buffer, truncated to 8. -/
theorem runIngest_closed_form (inputs : List IngestInput) :
    ∀ buf0 : List Violation, buf0.length ≤ 8 →
      runIngest buf0 inputs = ((inputs.filterMap extract).reverse ++ buf0).take 8 := by
  induction inputs with
  | nil =>
    intro buf0 h
    simp [runIngest, List.take_of_length_le h]
  | cons i rest ih =>
    intro buf0 h
    have hstep : runIngest buf0 (i :: rest) =
        runIngest (ingestStep i.freshId i.now buf0 i.event) rest := rfl
    rw [hstep, ingestStep_eq_extract]
    cases hx : extract ⟨i.freshId, i.now, i.event⟩ with
    | none =>
      have hi : extract i = none := by
        cases i; exact hx
      rw [ih buf0 h, List.filterMap_cons, hi]
    | some v =>
      have hi : extract i = some v := by
        cases i; exact hx
      have hlen : ((v :: buf0).take 8).length ≤ 8 :=
        List.length_take_le 8 (v :: buf0)
      rw [ih _ hlen, List.filterMap_cons, hi, List.reverse_cons]
      rw [take_append_take, List.append_assoc]
      rfl

/-! ## Claim theorems about the buffer and the refresh counter -/

/-- C1: for every ingest sequence the live Violation Buffer is exactly
the successfully ingested violations, most recent first (each success
prepended), truncated to the 8 newest (FIFO eviction of the oldest),
in front of what survives of the initial buffer; in particular its size
never exceeds 8, and after 9 successful ingests from empty it holds
exactly the 8 most recent. -/
theorem violationBuffer_bounded_mru (inputs : List IngestInput) (buf0 : List Violation)
    (h : buf0.length ≤ 8) :
    runIngest buf0 inputs = ((inputs.filterMap extract).reverse ++ buf0).take 8 ∧
    (runIngest buf0 inputs).length ≤ 8 := by
  have hcf := runIngest_closed_form inputs buf0 h
  refine ⟨hcf, ?_⟩
  rw [hcf]
  exact List.length_take_le 8 _

/-- A well-formed `violation:detected` event used in concrete runs. -/
def demoEvent (d : String) : Event :=
  ⟨"violation:detected", some ⟨some "POLICY", some d, some "HIGH", none, none⟩⟩

/-- Nine successful violation ingests in sequence. -/
def demoInputs : List IngestInput :=
  (List.range 9).map fun k => ⟨toString k, "t", demoEvent (toString k)⟩

theorem violationBuffer_bounded_mru_witness :
    ([] : List Violation).length ≤ 8 ∧
    (runIngest [] demoInputs = ((demoInputs.filterMap extract).reverse ++ []).take 8 ∧
     (runIngest [] demoInputs).length ≤ 8) :=
  ⟨by decide, violationBuffer_bounded_mru demoInputs [] (by decide)⟩

/-- C6: an event that is not `violation:detected`, or whose payload is
absent or missing any of `type`, `description`, `severity`, leaves the
Violation Buffer exactly unchanged (and `ingestStep` is total, so no
error is raised). -/
theorem ingest_malformed_noop (f n : String) (buf : List Violation) (e : Event)
    (h : e.type ≠ "violation:detected" ∨ e.data = none ∨
      ∃ p, e.data = some p ∧ (p.type = none ∨ p.description = none ∨ p.severity = none)) :
    ingestStep f n buf e = buf := by
  rcases h with h | h | ⟨p, hp, hf⟩
  · simp [ingestStep, h]
  · by_cases ht : e.type = "violation:detected" <;> simp [ingestStep, ht, h]
  · rcases hf with hf | hf | hf <;>
      by_cases ht : e.type = "violation:detected" <;>
        simp [ingestStep, ht, hp, truthy, hf]

/-- A `violation:detected` event whose payload is missing `type`. -/
def malformedEvent : Event :=
  ⟨"violation:detected", some ⟨none, some "d", some "HIGH", none, none⟩⟩

theorem ingest_malformed_noop_witness :
    (malformedEvent.type ≠ "violation:detected" ∨ malformedEvent.data = none ∨
      ∃ p, malformedEvent.data = some p ∧
        (p.type = none ∨ p.description = none ∨ p.severity = none)) ∧
    ingestStep "id0" "t0" [] malformedEvent = [] :=
  ⟨Or.inr (Or.inr ⟨_, rfl, Or.inl rfl⟩),
   ingest_malformed_noop "id0" "t0" [] malformedEvent
     (Or.inr (Or.inr ⟨_, rfl, Or.inl rfl⟩))⟩

/-- C10: the ingest guard tests truthiness, not presence — a
`violation:detected` payload whose `type`, `description` or `severity`
is present but equal to the empty string is likewise dropped, leaving
the buffer unchanged. -/
theorem ingest_emptyField_noop (f n : String) (buf : List Violation) (e : Event)
    (p : PartialViolation) (hd : e.data = some p)
    (hf : p.type = some "" ∨ p.description = some "" ∨ p.severity = some "") :
    ingestStep f n buf e = buf := by
  by_cases ht : e.type = "violation:detected" <;>
    rcases hf with hf | hf | hf <;>
      simp [ingestStep, ht, hd, truthy, hf, show "".isEmpty = true from rfl]

/-- A `violation:detected` event whose `severity` is the empty string. -/
def emptySeverityEvent : Event :=
  ⟨"violation:detected", some ⟨some "POLICY", some "d", some "", none, none⟩⟩

theorem ingest_emptyField_noop_witness :
    emptySeverityEvent.data = some ⟨some "POLICY", some "d", some "", none, none⟩ ∧
    ingestStep "id0" "t0" [] emptySeverityEvent = [] :=
  ⟨rfl,
   ingest_emptyField_noop "id0" "t0" [] emptySeverityEvent
     ⟨some "POLICY", some "d", some "", none, none⟩ rfl (Or.inr (Or.inr rfl))⟩

/-- C9: the refresh counter is incremented by exactly 1 for an incoming
event iff its type is `request:processed` or `killswitch:triggered`
(otherwise unchanged), and over any event sequence it is a `Nat` that
never decreases and is never reset. -/
theorem refreshCounter_spec (c : Nat) (e : Event) (evs : List Event) :
    (refreshStep c e = c + 1 ↔
      (e.type = "request:processed" ∨ e.type = "killswitch:triggered")) ∧
    (refreshStep c e = c + 1 ∨ refreshStep c e = c) ∧
    c ≤ runRefresh c evs := by
  refine ⟨⟨?_, ?_⟩, ?_, ?_⟩
  · intro h
    by_contra hc
    unfold refreshStep at h
    rw [if_neg hc] at h
    omega
  · intro h
    simp [refreshStep, h]
  · by_cases h : (e.type = "request:processed" ∨ e.type = "killswitch:triggered") <;>
      simp [refreshStep, h]
  · induction evs generalizing c with
    | nil => simp [runRefresh]
    | cons x xs ih =>
      have h1 : c ≤ refreshStep c x := by
        by_cases h : (x.type = "request:processed" ∨ x.type = "killswitch:triggered") <;>
          simp [refreshStep, h]
      exact le_trans h1 (ih (refreshStep c x))

/-! ## Aggregation Engine (`InsightsDashboard`)

`severityCounts` and `decisionDistribution` are pure derivations over
the fetched samples.  JS float percentages are modelled exactly in `ℚ`. -/

/-- The decision of a fetched request in the insights sample; the field
is optional (an optional APPROVE / FLAG / KILL union in TS). -/
inductive Decision where
  | APPROVE
  | FLAG
  | KILL
deriving DecidableEq, Repr

/-- A fetched request as the decision distribution sees it. -/
structure InsightRequest where
  decision : Option Decision
deriving DecidableEq, Repr

/-- The four decision buckets. -/
structure DecCounts where
  approve : Nat
  flag : Nat
  kill : Nat
  pending : Nat
deriving DecidableEq, Repr

/-- One loop iteration of `decisionDistribution`: a request with no
`decision` counts as PENDING, otherwise its decision bucket grows. -/
def decBump (c : DecCounts) (r : InsightRequest) : DecCounts :=
  match r.decision with
  | none => { c with pending := c.pending + 1 }
  | some .APPROVE => { c with approve := c.approve + 1 }
  | some .FLAG => { c with flag := c.flag + 1 }
  | some .KILL => { c with kill := c.kill + 1 }

/-- The bucket counts of `decisionDistribution`. -/
def decisionCounts (rs : List InsightRequest) : DecCounts :=
  rs.foldl decBump ⟨0, 0, 0, 0⟩

/-- `Math.max(1, requests.length)`, the normalizing total. -/
def sampleTotal (rs : List InsightRequest) : Nat := max 1 rs.length

/-- A bucket percentage: `count / max(1, sampleSize) * 100`. -/
def pct (count : Nat) (rs : List InsightRequest) : ℚ :=
  (count : ℚ) / (sampleTotal rs : ℚ) * 100

/-- First cumulative stop of the conic-gradient chart. -/
def boundary1 (rs : List InsightRequest) : ℚ := pct (decisionCounts rs).approve rs

/-- Second cumulative stop: APPROVE + FLAG. -/
def boundary2 (rs : List InsightRequest) : ℚ := boundary1 rs + pct (decisionCounts rs).flag rs

/-- Third cumulative stop: APPROVE + FLAG + KILL. -/
def boundary3 (rs : List InsightRequest) : ℚ := boundary2 rs + pct (decisionCounts rs).kill rs

/-- Final cumulative stop: APPROVE + FLAG + KILL + PENDING. -/
def boundary4 (rs : List InsightRequest) : ℚ := boundary3 rs + pct (decisionCounts rs).pending rs

theorem decisionCounts_sum_aux (rs : List InsightRequest) :
    ∀ c : DecCounts,
      (rs.foldl decBump c).approve + (rs.foldl decBump c).flag +
        (rs.foldl decBump c).kill + (rs.foldl decBump c).pending =
      c.approve + c.flag + c.kill + c.pending + rs.length := by
  induction rs with
  | nil => intro c; simp
  | cons r rest ih =>
    intro c
    have hstep : (r :: rest).foldl decBump c = rest.foldl decBump (decBump c r) := rfl
    rw [hstep]
    rcases hr : r.decision with _ | d
    · rw [ih (decBump c r)]; simp [decBump, hr]; omega
    · cases d <;> (rw [ih (decBump c r)]; simp [decBump, hr]; omega)

/-- The four bucket counts always sum to the sample size. -/
theorem decisionCounts_sum (rs : List InsightRequest) :
    (decisionCounts rs).approve + (decisionCounts rs).flag +
      (decisionCounts rs).kill + (decisionCounts rs).pending = rs.length := by
  have h := decisionCounts_sum_aux rs ⟨0, 0, 0, 0⟩
  simpa [decisionCounts] using h

/-- The decision-distribution claim fails as stated on the empty
sample: all percentages are computed against `max(1, 0) = 1`, every
count is 0, and the final cumulative boundary is 0, not 100. -/
theorem decisionDistribution_empty_counterexample :
    boundary4 ([] : List InsightRequest) = 0 ∧
    boundary4 ([] : List InsightRequest) ≠ 100 := by
  have h : boundary4 ([] : List InsightRequest) = 0 := by
    simp [boundary4, boundary3, boundary2, boundary1, pct, decisionCounts, sampleTotal]
  refine ⟨h, ?_⟩
  rw [h]
  norm_num

/-- C2 (amended): the four buckets tally every request (a request with
no decision counts as PENDING), their counts sum exactly to the sample
size, each percentage is `count / max(1, sampleSize) * 100`, and for
every nonempty sample the cumulative boundaries in the order APPROVE,
FLAG, KILL, PENDING end with `boundary₄ = 100` exactly; on the empty
sample `boundary₄ = 0`. -/
theorem decisionDistribution_spec (rs : List InsightRequest) :
    ((decisionCounts rs).approve + (decisionCounts rs).flag +
      (decisionCounts rs).kill + (decisionCounts rs).pending = rs.length) ∧
    (rs ≠ [] → boundary4 rs = 100) ∧
    boundary4 ([] : List InsightRequest) = 0 := by
  refine ⟨decisionCounts_sum rs, ?_, ?_⟩
  · intro hne
    have hlen : 1 ≤ rs.length := by
      cases rs with
      | nil => exact absurd rfl hne
      | cons a l => simp
    have htot : sampleTotal rs = rs.length := Nat.max_eq_right hlen
    have hsum := decisionCounts_sum rs
    have hcast : ((decisionCounts rs).approve : ℚ) + (decisionCounts rs).flag +
        (decisionCounts rs).kill + (decisionCounts rs).pending = (rs.length : ℚ) := by
      exact_mod_cast congrArg (Nat.cast : Nat → ℚ) hsum
    have hne0 : ((rs.length : ℚ)) ≠ 0 := Nat.cast_ne_zero.mpr (by omega)
    unfold boundary4 boundary3 boundary2 boundary1 pct
    rw [htot]
    field_simp
    linarith [hcast]
  · simp [boundary4, boundary3, boundary2, boundary1, pct, decisionCounts, sampleTotal]

theorem decisionDistribution_spec_witness :
    ([⟨some .APPROVE⟩, ⟨none⟩] : List InsightRequest) ≠ [] ∧
    boundary4 ([⟨some .APPROVE⟩, ⟨none⟩] : List InsightRequest) = 100 :=
  ⟨by decide,
   (decisionDistribution_spec [⟨some .APPROVE⟩, ⟨none⟩]).2.1 (by decide)⟩

/-- A fetched violation as the severity tally sees it.  The TS type
restricts `severity` to the four known labels, but the tally is run on
dynamic data, so the model keeps it as a string. -/
structure SViolation where
  id : String
  severity : String
deriving DecidableEq, Repr

/-- The four known severity buckets. -/
structure SevCounts where
  low : Nat
  medium : Nat
  high : Nat
  critical : Nat
deriving DecidableEq, Repr

/-- One loop iteration of `severityCounts`
(`counts[violation.severity] += 1`).  For an unknown severity the JS
object write lands on a fresh key (becoming `NaN`), so none of the four
known buckets changes and no error is raised; the model tracks the four
known buckets. -/
def sevBump (c : SevCounts) (s : String) : SevCounts :=
  if s = "LOW" then { c with low := c.low + 1 }
  else if s = "MEDIUM" then { c with medium := c.medium + 1 }
  else if s = "HIGH" then { c with high := c.high + 1 }
  else if s = "CRITICAL" then { c with critical := c.critical + 1 }
  else c

/-- The severity histogram tally of `InsightsDashboard`. -/
def severityCounts (vs : List SViolation) : SevCounts :=
  vs.foldl (fun c v => sevBump c v.severity) ⟨0, 0, 0, 0⟩

/-- Membership of a severity string in the four known labels. -/
def knownSeverity (s : String) : Bool :=
  s == "LOW" || s == "MEDIUM" || s == "HIGH" || s == "CRITICAL"

theorem severityCounts_sum_aux (vs : List SViolation) :
    ∀ c : SevCounts,
      (vs.foldl (fun c v => sevBump c v.severity) c).low +
        (vs.foldl (fun c v => sevBump c v.severity) c).medium +
        (vs.foldl (fun c v => sevBump c v.severity) c).high +
        (vs.foldl (fun c v => sevBump c v.severity) c).critical =
      c.low + c.medium + c.high + c.critical +
        (vs.filter fun v => knownSeverity v.severity).length := by
  induction vs with
  | nil => intro c; simp
  | cons v rest ih =>
    intro c
    have hstep : (v :: rest).foldl (fun c v => sevBump c v.severity) c =
        rest.foldl (fun c v => sevBump c v.severity) (sevBump c v.severity) := rfl
    rw [hstep, ih (sevBump c v.severity)]
    by_cases h1 : v.severity = "LOW"
    · simp [sevBump, knownSeverity, h1]; omega
    · by_cases h2 : v.severity = "MEDIUM"
      · simp [sevBump, knownSeverity, h1, h2]; omega
      · by_cases h3 : v.severity = "HIGH"
        · simp [sevBump, knownSeverity, h1, h2, h3]; omega
        · by_cases h4 : v.severity = "CRITICAL"
          · simp [sevBump, knownSeverity, h1, h2, h3, h4]; omega
          · simp [sevBump, knownSeverity, h1, h2, h3, h4]

/-- C7: the severity tally is total (it cannot crash), an item with an
unknown severity contributes to none of the four buckets and corrupts
none of them, the four counts sum to the number of sample items whose
severity is one of LOW, MEDIUM, HIGH, CRITICAL, and when every severity
in the sample is known the counts sum to the sample size. -/
theorem severityCounts_spec (vs : List SViolation) :
    (∀ (c : SevCounts) (s : String), knownSeverity s = false → sevBump c s = c) ∧
    ((severityCounts vs).low + (severityCounts vs).medium +
      (severityCounts vs).high + (severityCounts vs).critical =
      (vs.filter fun v => knownSeverity v.severity).length) ∧
    ((∀ v ∈ vs, knownSeverity v.severity = true) →
      (severityCounts vs).low + (severityCounts vs).medium +
        (severityCounts vs).high + (severityCounts vs).critical = vs.length) := by
  have h := severityCounts_sum_aux vs ⟨0, 0, 0, 0⟩
  have hbase : (severityCounts vs).low + (severityCounts vs).medium +
      (severityCounts vs).high + (severityCounts vs).critical =
      (vs.filter fun v => knownSeverity v.severity).length := by
    simpa [severityCounts] using h
  refine ⟨?_, hbase, ?_⟩
  · intro c s hs
    simp [knownSeverity] at hs
    obtain ⟨⟨⟨h1, h2⟩, h3⟩, h4⟩ := hs
    simp [sevBump, h1, h2, h3, h4]
  · intro hall
    rw [hbase, List.filter_eq_self.mpr hall]

theorem severityCounts_spec_witness :
    (∀ v ∈ ([⟨"v1", "LOW"⟩, ⟨"v2", "CRITICAL"⟩] : List SViolation),
      knownSeverity v.severity = true) ∧
    ((severityCounts [⟨"v1", "LOW"⟩, ⟨"v2", "CRITICAL"⟩]).low +
      (severityCounts [⟨"v1", "LOW"⟩, ⟨"v2", "CRITICAL"⟩]).medium +
      (severityCounts [⟨"v1", "LOW"⟩, ⟨"v2", "CRITICAL"⟩]).high +
      (severityCounts [⟨"v1", "LOW"⟩, ⟨"v2", "CRITICAL"⟩]).critical =
      ([⟨"v1", "LOW"⟩, ⟨"v2", "CRITICAL"⟩] : List SViolation).length) :=
  ⟨by decide, (severityCounts_spec [⟨"v1", "LOW"⟩, ⟨"v2", "CRITICAL"⟩]).2.2 (by decide)⟩

/-! ## Collection View Controller (`RequestList.visibleRequests`)

`createdAt` is carried as the `Int` value of `new Date(...).getTime()`;
`localeCompare` is modelled as lexicographic string comparison; the JS
`Array.prototype.sort` (stable since ES2019) with a consistent
comparator `cmp` is modelled as `List.mergeSort` on `cmp · · ≤ 0`. -/

/-- A fetched request as `RequestList` holds it. -/
structure Req where
  id : String
  agentId : String
  action : String
  target : String
  status : String
  decision : Option String
  createdAt : Int
deriving DecidableEq, Repr

/-- The search predicate of `visibleRequests` (the `matchesSearch`
conjunct), applied to the trimmed lowercased query. -/
def matchesSearch (query : String) (r : Req) : Bool :=
  query.length == 0 ||
  strContains (strToLower r.id) query ||
  strContains (strToLower r.agentId) query ||
  strContains (strToLower r.action) query ||
  strContains (strToLower r.target) query ||
  strContains (strToLower r.status) query ||
  strContains (strToLower (r.decision.getD "")) query

/-- The filtering stage of `visibleRequests`: search match plus the
starred-only restriction. -/
def filteredRequests (requests : List Req) (search : String)
    (star : String → Bool) (starredOnly : Bool) : List Req :=
  let query := strToLower (strTrim search)
  requests.filter fun r => matchesSearch query r && (!starredOnly || star r.id)

/-- Lexicographic comparison standing for `localeCompare`. -/
def lexCmp (s t : String) : Int :=
  if s < t then -1 else if t < s then 1 else 0

/-- The sort keys of the request list. -/
inductive SortKey where
  | newest
  | oldest
  | agent
  | status
deriving DecidableEq, Repr

/-- The sort-key part of the comparator in `visibleRequests`. -/
def sortCmp (k : SortKey) (a b : Req) : Int :=
  match k with
  | .newest => b.createdAt - a.createdAt
  | .oldest => a.createdAt - b.createdAt
  | .agent => lexCmp a.agentId b.agentId
  | .status => lexCmp a.status b.status

/-- The full comparator of `visibleRequests`: starred items first, then
the chosen sort key. -/
def fullCmp (star : String → Bool) (k : SortKey) (a b : Req) : Int :=
  if star a.id && !star b.id then -1
  else if !star a.id && star b.id then 1
  else sortCmp k a b

/-- The (total, stability-preserving) order induced by the comparator. -/
def reqLe (star : String → Bool) (k : SortKey) (a b : Req) : Bool :=
  decide (fullCmp star k a b ≤ 0)

/-- The display order produced by `visibleRequests`: filter, then the
stable sort by the full comparator. -/
def visibleRequests (requests : List Req) (search : String)
    (star : String → Bool) (starredOnly : Bool) (k : SortKey) : List Req :=
  (filteredRequests requests search star starredOnly).mergeSort (reqLe star k)

/-- Star rank: starred items compare before non-starred ones. -/
def rank (star : String → Bool) (r : Req) : Nat := if star r.id then 0 else 1

/-- The order each sort key is specified to produce: `createdAt`
descending for newest, ascending for oldest, lexicographic `agentId`
for agent, lexicographic `status` for status. -/
def keyLe (k : SortKey) (a b : Req) : Prop :=
  match k with
  | .newest => b.createdAt ≤ a.createdAt
  | .oldest => a.createdAt ≤ b.createdAt
  | .agent => a.agentId ≤ b.agentId
  | .status => a.status ≤ b.status

theorem lexCmp_nonpos_iff (s t : String) : lexCmp s t ≤ 0 ↔ s ≤ t := by
  unfold lexCmp
  split_ifs with h1 h2
  · exact iff_of_true (by norm_num) (le_of_lt h1)
  · exact iff_of_false (by norm_num) (not_le.mpr h2)
  · exact iff_of_true le_rfl (not_lt.mp h2)

theorem sortCmp_nonpos_iff (k : SortKey) (a b : Req) :
    sortCmp k a b ≤ 0 ↔ keyLe k a b := by
  cases k with
  | newest => simp only [sortCmp, keyLe]; omega
  | oldest => simp only [sortCmp, keyLe]; omega
  | agent => simp only [sortCmp, keyLe]; exact lexCmp_nonpos_iff _ _
  | status => simp only [sortCmp, keyLe]; exact lexCmp_nonpos_iff _ _

theorem reqLe_iff (star : String → Bool) (k : SortKey) (a b : Req) :
    reqLe star k a b = true ↔
      (rank star a < rank star b ∨ (rank star a = rank star b ∧ keyLe k a b)) := by
  unfold reqLe fullCmp rank
  rw [decide_eq_true_iff]
  cases hsa : star a.id <;> cases hsb : star b.id <;>
    simp [hsa, hsb, sortCmp_nonpos_iff]

theorem keyLe_trans (k : SortKey) (a b c : Req) :
    keyLe k a b → keyLe k b c → keyLe k a c := by
  cases k with
  | newest => exact fun h1 h2 => le_trans h2 h1
  | oldest => exact fun h1 h2 => le_trans h1 h2
  | agent => exact fun h1 h2 => le_trans h1 h2
  | status => exact fun h1 h2 => le_trans h1 h2

theorem keyLe_total (k : SortKey) (a b : Req) : keyLe k a b ∨ keyLe k b a := by
  cases k with
  | newest => exact le_total _ _
  | oldest => exact le_total _ _
  | agent => exact le_total _ _
  | status => exact le_total _ _

theorem reqLe_trans (star : String → Bool) (k : SortKey) :
    ∀ a b c : Req, reqLe star k a b → reqLe star k b c → reqLe star k a c := by
  intro a b c h1 h2
  rw [reqLe_iff] at h1 h2 ⊢
  rcases h1 with h1 | ⟨h1, h1k⟩ <;> rcases h2 with h2 | ⟨h2, h2k⟩
  · left; omega
  · left; omega
  · left; omega
  · right; exact ⟨h1.trans h2, keyLe_trans k a b c h1k h2k⟩

theorem reqLe_total (star : String → Bool) (k : SortKey) :
    ∀ a b : Req, reqLe star k a b || reqLe star k b a := by
  intro a b
  rw [Bool.or_eq_true, reqLe_iff, reqLe_iff]
  rcases Nat.lt_trichotomy (rank star a) (rank star b) with h | h | h
  · exact Or.inl (Or.inl h)
  · rcases keyLe_total k a b with hk | hk
    · exact Or.inl (Or.inr ⟨h, hk⟩)
    · exact Or.inr (Or.inr ⟨h.symm, hk⟩)
  · exact Or.inr (Or.inl h)

/-- C3: for every fetched collection, query, star set and sort key the
display order (i) never places a non-starred item before a starred one,
(ii) among two items with the same star flag follows the chosen sort
key order, (iii) keeps any comparator-tied pair in original fetch
order (stability), and (iv) is a permutation of the filtered set. -/
theorem visibleRequests_order_spec (requests : List Req) (search : String)
    (star : String → Bool) (starredOnly : Bool) (k : SortKey) :
    (visibleRequests requests search star starredOnly k).Pairwise
      (fun a b => ¬(star a.id = false ∧ star b.id = true)) ∧
    (visibleRequests requests search star starredOnly k).Pairwise
      (fun a b => star a.id = star b.id → keyLe k a b) ∧
    (∀ a b : Req, fullCmp star k a b = 0 →
      [a, b].Sublist (filteredRequests requests search star starredOnly) →
      [a, b].Sublist (visibleRequests requests search star starredOnly k)) ∧
    (visibleRequests requests search star starredOnly k).Perm
      (filteredRequests requests search star starredOnly) := by
  have hsorted : ((filteredRequests requests search star starredOnly).mergeSort
      (reqLe star k)).Pairwise (fun a b => reqLe star k a b = true) :=
    List.sorted_mergeSort (reqLe_trans star k) (reqLe_total star k)
      (filteredRequests requests search star starredOnly)
  refine ⟨?_, ?_, ?_, ?_⟩
  · refine hsorted.imp ?_
    intro a b hle ⟨ha, hb⟩
    rw [reqLe_iff] at hle
    simp [rank, ha, hb] at hle
  · refine hsorted.imp ?_
    intro a b hle heq
    rw [reqLe_iff] at hle
    have hr : rank star a = rank star b := by simp [rank, heq]
    rcases hle with h | ⟨_, hk⟩
    · omega
    · exact hk
  · intro a b hcmp hsub
    have hab : reqLe star k a b = true := by
      simp [reqLe, hcmp]
    exact List.pair_sublist_mergeSort (reqLe_trans star k) (reqLe_total star k) hab hsub
  · exact List.mergeSort_perm _ _

/-- Two comparator-tied non-starred requests with equal timestamps. -/
def reqC : Req := ⟨"r3", "a3", "read", "db", "pending", none, 5⟩

/-- Second element of the tied pair. -/
def reqD : Req := ⟨"r4", "a4", "read", "db", "pending", none, 5⟩

theorem visibleRequests_order_spec_witness :
    [reqC, reqD].Sublist (visibleRequests [reqC, reqD] "" (fun _ => false) false .newest) :=
  (visibleRequests_order_spec [reqC, reqD] "" (fun _ => false) false .newest).2.2.1
    reqC reqD (by decide) (by decide)

/-- C5: membership in the displayed set holds iff the request is in the
fetched collection, the trimmed lowercased query is empty or a substring
of one of the six lowercased fields (an absent decision matching as the
empty string), and — when starred-only is active — the id is starred. -/
theorem string_length_eq_zero (s : String) : s.length = 0 ↔ s = "" := by
  constructor
  · intro h
    have hd : s.data = [] := List.length_eq_zero.mp h
    cases s
    simp_all
  · intro h
    subst h
    rfl

theorem visibleRequests_filter_spec (requests : List Req) (search : String)
    (star : String → Bool) (starredOnly : Bool) (k : SortKey) (r : Req) :
    r ∈ visibleRequests requests search star starredOnly k ↔
      (r ∈ requests ∧
        (strToLower (strTrim search) = "" ∨
          strContains (strToLower r.id) (strToLower (strTrim search)) = true ∨
          strContains (strToLower r.agentId) (strToLower (strTrim search)) = true ∨
          strContains (strToLower r.action) (strToLower (strTrim search)) = true ∨
          strContains (strToLower r.target) (strToLower (strTrim search)) = true ∨
          strContains (strToLower r.status) (strToLower (strTrim search)) = true ∨
          strContains (strToLower (r.decision.getD "")) (strToLower (strTrim search)) = true) ∧
        (!starredOnly || star r.id) = true) := by
  unfold visibleRequests filteredRequests
  rw [List.mem_mergeSort, List.mem_filter]
  simp only [Bool.and_eq_true, Bool.or_eq_true, matchesSearch, beq_iff_eq,
    string_length_eq_zero, and_assoc, or_assoc]

/-! ## Query Router and chat (`generateAssistantReply`, `sendMessage`)

The router performs one fetch per intent; a backend snapshot stands for
the four endpoints, with `none` meaning the fetch failed (non-ok or
network error), in which case the code throws the corresponding error
message.  `Except` carries that thrown message. -/

/-- The aggregate stats summary consumed by the stats intent. -/
structure Stats where
  totalRequests : Nat
  approvedRequests : Nat
  flaggedRequests : Nat
  killedRequests : Nat
  blockedAgents : Nat
deriving DecidableEq, Repr

/-- An agent row of `GET /api/agents`. -/
structure AgentInfo where
  agentId : String
  isActive : Bool
deriving DecidableEq, Repr

/-- A request row as the requests intent formats it. -/
structure ChatReq where
  agentId : String
  action : String
  decision : Option String
deriving DecidableEq, Repr

/-- A violation row as the violations intent formats it. -/
structure ChatViol where
  type : String
  severity : String
deriving DecidableEq, Repr

/-- A snapshot of the four summary endpoints; `none` = fetch failure.
The request and violation lists are what the endpoints return for
`limit=5`: the 5 most recent rows. -/
structure Backend where
  stats : Option Stats
  agents : Option (List AgentInfo)
  requests : Option (List ChatReq)
  violations : Option (List ChatViol)

/-- The stats-intent reply text. -/
def statsReplyText (s : Stats) : String :=
  "Stats snapshot: total=" ++ toString s.totalRequests ++
    ", approved=" ++ toString s.approvedRequests ++
    ", flagged=" ++ toString s.flaggedRequests ++
    ", killed=" ++ toString s.killedRequests ++
    ", blockedAgents=" ++ toString s.blockedAgents ++ "."

/-- The blocked-agents reply: count and ids of the inactive agents, or
the no-blocked-agents sentence. -/
def blockedReplyText (agents : List AgentInfo) : String :=
  let blocked := agents.filter fun a => !a.isActive
  if blocked.length = 0 then "No blocked agents right now."
  else
    "Blocked agents (" ++ toString blocked.length ++ "): " ++
      String.intercalate ", " (blocked.map AgentInfo.agentId) ++ "."

/-- The requests reply: `agentId:action:decision-or-PENDING` joined by
a separator, or the no-requests sentence. -/
def requestsReplyText (rs : List ChatReq) : String :=
  if rs.length = 0 then "No requests found yet."
  else
    "Recent requests: " ++
      String.intercalate " | "
        (rs.map fun r => r.agentId ++ ":" ++ r.action ++ ":" ++ r.decision.getD "PENDING") ++ "."

/-- The violations reply: `type (severity)` joined by commas, or the
no-violations sentence. -/
def violationsReplyText (vs : List ChatViol) : String :=
  if vs.length = 0 then "No violations found."
  else
    "Recent violations: " ++
      String.intercalate ", " (vs.map fun v => v.type ++ " (" ++ v.severity ++ ")") ++ "."

/-- The fixed help string listing the four supported intents. -/
def helpText : String :=
  "Try asking: \x22stats\x22, \x22recent requests\x22, \x22violations\x22, or \x22blocked agents\x22."

/-- The Query Router `generateAssistantReply`: keywords tested
first-match-wins on the lowercased input in the fixed order
stat / blocked-or-kill / request / violation, else the help string.
A failed fetch throws (`Except.error`) the error message of that branch. -/
def generateAssistantReply (backend : Backend) (input : String) : Except String String :=
  let query := strToLower input
  if strContains query "stat" then
    match backend.stats with
    | none => .error "Unable to fetch stats"
    | some s => .ok (statsReplyText s)
  else if strContains query "blocked" || strContains query "kill" then
    match backend.agents with
    | none => .error "Unable to fetch agents"
    | some ags => .ok (blockedReplyText ags)
  else if strContains query "request" then
    match backend.requests with
    | none => .error "Unable to fetch requests"
    | some rs => .ok (requestsReplyText rs)
  else if strContains query "violation" then
    match backend.violations with
    | none => .error "Unable to fetch violations"
    | some vs => .ok (violationsReplyText vs)
  else .ok helpText

/-- C4: the Query Router tests keywords first-match-wins in the fixed
order stat, then blocked-or-kill, then request, then violation, and
otherwise returns the fixed four-intent help string: each conjunct
states which reply the route produces (the blocked route reporting
count and ids, or the no-blocked-agents sentence when every agent is
active); an input with no keyword, such as "hello", yields the help
string, and "stat" wins over "kill". -/
theorem queryRouter_spec (backend : Backend) (input : String) :
    (strContains (strToLower input) "stat" = true →
      generateAssistantReply backend input =
        (match backend.stats with
          | none => .error "Unable to fetch stats"
          | some s => .ok (statsReplyText s))) ∧
    (strContains (strToLower input) "stat" = false →
      (strContains (strToLower input) "blocked" || strContains (strToLower input) "kill") = true →
      generateAssistantReply backend input =
        (match backend.agents with
          | none => .error "Unable to fetch agents"
          | some ags => .ok (blockedReplyText ags))) ∧
    (strContains (strToLower input) "stat" = false →
      strContains (strToLower input) "blocked" = false →
      strContains (strToLower input) "kill" = false →
      strContains (strToLower input) "request" = true →
      generateAssistantReply backend input =
        (match backend.requests with
          | none => .error "Unable to fetch requests"
          | some rs => .ok (requestsReplyText rs))) ∧
    (strContains (strToLower input) "stat" = false →
      strContains (strToLower input) "blocked" = false →
      strContains (strToLower input) "kill" = false →
      strContains (strToLower input) "request" = false →
      strContains (strToLower input) "violation" = true →
      generateAssistantReply backend input =
        (match backend.violations with
          | none => .error "Unable to fetch violations"
          | some vs => .ok (violationsReplyText vs))) ∧
    (strContains (strToLower input) "stat" = false →
      strContains (strToLower input) "blocked" = false →
      strContains (strToLower input) "kill" = false →
      strContains (strToLower input) "request" = false →
      strContains (strToLower input) "violation" = false →
      generateAssistantReply backend input = .ok helpText) := by
  refine ⟨?_, ?_, ?_, ?_, ?_⟩
  · intro h1
    simp [generateAssistantReply, h1]
  · intro h1 h2
    simp [generateAssistantReply, h1, h2]
  · intro h1 h2 h3 h4
    simp [generateAssistantReply, h1, h2, h3, h4]
  · intro h1 h2 h3 h4 h5
    simp [generateAssistantReply, h1, h2, h3, h4, h5]
  · intro h1 h2 h3 h4 h5
    simp [generateAssistantReply, h1, h2, h3, h4, h5]

/-- A backend snapshot with one blocked agent. -/
def demoBackend : Backend :=
  ⟨some ⟨10, 6, 2, 2, 1⟩, some [⟨"x", false⟩], some [], some []⟩

theorem queryRouter_spec_witness :
    (strContains (strToLower "hello") "stat" = false ∧
      strContains (strToLower "hello") "blocked" = false ∧
      strContains (strToLower "hello") "kill" = false ∧
      strContains (strToLower "hello") "request" = false ∧
      strContains (strToLower "hello") "violation" = false) ∧
    generateAssistantReply demoBackend "hello" = .ok helpText ∧
    (strContains (strToLower "how many blocked agents") "stat" = false ∧
      strContains (strToLower "how many blocked agents") "blocked" = true) ∧
    generateAssistantReply demoBackend "how many blocked agents" =
      .ok "Blocked agents (1): x." :=
  ⟨⟨by decide, by decide, by decide, by decide, by decide⟩,
   (queryRouter_spec demoBackend "hello").2.2.2.2
     (by decide) (by decide) (by decide) (by decide) (by decide),
   ⟨by decide, by decide⟩,
   by
    have h := (queryRouter_spec demoBackend "how many blocked agents").2.1
      (by decide) (by decide)
    rw [h]
    rfl⟩

/-- Message roles in the chat history. -/
inductive Role where
  | user
  | assistant
deriving DecidableEq, Repr

/-- A chat message; `id` and `timestamp` are client-assigned. -/
structure ChatMessage where
  id : String
  role : Role
  text : String
  timestamp : String
deriving DecidableEq, Repr

/-- The chat-relevant state of `DashboardApp`. -/
structure ChatState where
  messages : List ChatMessage
  chatInput : String
  chatLoading : Bool
deriving Repr

/-- The first half of `sendMessage`, executed before the reply is
attempted: append the user message, clear the input, set loading. -/
def recordUserMessage (uid uts input : String) (st : ChatState) : ChatState :=
  { st with
    messages := st.messages ++ [⟨uid, .user, input, uts⟩]
    chatInput := ""
    chatLoading := true }

/-- The assistant text of an exchange: the routed reply on success, or
the `Chatbot error:` message built from the caught failure. -/
def replyText (backend : Backend) (input : String) : String :=
  match generateAssistantReply backend input with
  | .ok t => t
  | .error m => "Chatbot error: " ++ m

/-- The whole `sendMessage` exchange as a state transition: guard on
empty input or an in-flight exchange, record the user message, attempt
the routed reply (a fetch failure is caught, never rethrown), append
exactly one assistant message, and clear the loading flag. -/
def sendMessage (backend : Backend) (uid uts bid bts : String) (st : ChatState) : ChatState :=
  let input := strTrim st.chatInput
  if input = "" || st.chatLoading then st
  else
    let st1 := recordUserMessage uid uts input st
    { st1 with
      messages := st1.messages ++ [⟨bid, .assistant, replyText backend input, bts⟩]
      chatLoading := false }

/-- C8: in every chat exchange (non-empty trimmed input, no exchange in
flight) the user message is appended by `recordUserMessage` before
the reply is attempted, the final history is the previous one followed
by exactly the user message and one assistant reply, a routed fetch
failure surfaces as the `Chatbot error:` assistant text rather than an
unhandled fault (`sendMessage` is total), and the conversation is
usable again (loading cleared). -/
theorem sendMessage_spec (backend : Backend) (uid uts bid bts : String)
    (st : ChatState) (hload : st.chatLoading = false)
    (hinput : strTrim st.chatInput ≠ "") :
    (sendMessage backend uid uts bid bts st).messages =
      (recordUserMessage uid uts (strTrim st.chatInput) st).messages ++
        [⟨bid, .assistant, replyText backend (strTrim st.chatInput), bts⟩] ∧
    (sendMessage backend uid uts bid bts st).messages =
      st.messages ++
        [⟨uid, .user, strTrim st.chatInput, uts⟩,
         ⟨bid, .assistant, replyText backend (strTrim st.chatInput), bts⟩] ∧
    (∀ m : String, generateAssistantReply backend (strTrim st.chatInput) = .error m →
      replyText backend (strTrim st.chatInput) = "Chatbot error: " ++ m) ∧
    (sendMessage backend uid uts bid bts st).chatLoading = false := by
  have hguard : (strTrim st.chatInput = "" || st.chatLoading) = false := by
    simp [hload, hinput]
  refine ⟨?_, ?_, ?_, ?_⟩
  · simp [sendMessage, hguard, hinput, hload]
  · simp [sendMessage, recordUserMessage, hguard, hinput, hload]
  · intro m hm
    simp [replyText, hm]
  · simp [sendMessage, hguard, hinput, hload]

/-- A chat state about to ask for stats, with every fetch failing. -/
def demoChatState : ChatState :=
  ⟨[], " stats please ", false⟩

/-- A backend snapshot in which every fetch fails. -/
def failingBackend : Backend := ⟨none, none, none, none⟩

theorem sendMessage_spec_witness :
    demoChatState.chatLoading = false ∧
    strTrim demoChatState.chatInput ≠ "" ∧
    (sendMessage failingBackend "u1" "t1" "b1" "t2" demoChatState).messages =
      demoChatState.messages ++
        [⟨"u1", .user, strTrim demoChatState.chatInput, "t1"⟩,
         ⟨"b1", .assistant, replyText failingBackend (strTrim demoChatState.chatInput), "t2"⟩] :=
  ⟨rfl, by decide,
   (sendMessage_spec failingBackend "u1" "t1" "b1" "t2" demoChatState rfl (by decide)).2.1⟩

end Watchdog
